import Mathlib

/-!
Shallow embedding of `src/FruitNinja.c` (klaytonkowalski/game-fruit-ninja).

Floating-point (`float`) values are modelled as exact rationals `ℚ`; machine
ints as `ℤ`/`ℕ`.  The fixed-size C arrays `fruits[48]` / `particles[16]`
become Lean `List`s whose length (48 and 16) invariant is proved rather than
assumed; an array write `a[i] = v` becomes `List.set`, a read `a[i]` becomes
`List.getD i default` (the default mirrors C static zero-initialisation and is
only reachable where the C program would index out of bounds, which the
invariants rule out).  Per-frame environment values that the C code obtains by
calling raylib (mouse position, button edges, `GetFrameTime`, and the
`GetRandomValue` draws consumed by `SpawnFruit`) are passed in as an `Input`
record, one per frame.  Audio and drawing calls have no effect on the game
state and are dropped.
-/

namespace FruitNinja

/-- The `GameState` enum of the C source. -/
inductive GameState where
  | startState : GameState
  | playState : GameState
  | loseState : GameState
  deriving DecidableEq, Repr

/-- The `FruitType` enum of the C source (`donutType` is the bomb). -/
inductive FruitType where
  | appleType : FruitType
  | bananaType : FruitType
  | cherryType : FruitType
  | donutType : FruitType
  deriving DecidableEq, Repr

/-- raylib `Vector2`, with exact rational coordinates. -/
structure V2 where
  x : ℚ
  y : ℚ
  deriving DecidableEq, Repr

/-- The `Fruit` struct of the C source. -/
structure Fruit where
  type : FruitType
  position : V2
  velocity : V2
  enabled : Bool
  deriving DecidableEq, Repr

/-- The `Particle` struct of the C source. -/
structure Particle where
  position : V2
  elapsed : ℚ
  enabled : Bool
  deriving DecidableEq, Repr

/-- `#define MAX_FRUIT_COUNT 48`. -/
def MAX_FRUIT_COUNT : ℕ := 48

/-- `#define MAX_PARTICLE_COUNT 16`. -/
def MAX_PARTICLE_COUNT : ℕ := 16

/-- `static const int screenWidth = 960`. -/
def screenWidth : ℚ := 960

/-- `static const int screenHeight = 540`. -/
def screenHeight : ℚ := 540

/-- `static const int targetFPS = 60`. -/
def targetFPS : ℚ := 60

/-- `static const int appleScore = 1`. -/
def appleScore : ℤ := 1

/-- `static const int bananaScore = appleScore * 3`. -/
def bananaScore : ℤ := appleScore * 3

/-- `static const int cherryScore = bananaScore * 3`. -/
def cherryScore : ℤ := bananaScore * 3

/-- `static const int fruitRadius = 32`. -/
def fruitRadius : ℚ := 32

/-- `static const int appleSpawnCeiling = 50`. -/
def appleSpawnCeiling : ℤ := 50

/-- `static const int bananaSpawnCeiling = 75`. -/
def bananaSpawnCeiling : ℤ := 75

/-- `static const int cherrySpawnCeiling = 85`. -/
def cherrySpawnCeiling : ℤ := 85

/-- `static const int donutSpawnCeiling = 100`. -/
def donutSpawnCeiling : ℤ := 100

/-- `static const float minimumFruitThrust = 5` (used as an int bound of
`GetRandomValue`, hence `ℤ`). -/
def minimumFruitThrust : ℤ := 5

/-- `static const float maximumFruitThrust = 20`. -/
def maximumFruitThrust : ℤ := 20

/-- `static const float minimumFruitStrafe = -5`. -/
def minimumFruitStrafe : ℤ := -5

/-- `static const float maximumFruitStrafe = 5`. -/
def maximumFruitStrafe : ℤ := 5

/-- `static const float minimumSpawnRate = 1`. -/
def minimumSpawnRate : ℚ := 1

/-- `static const float maximumSpawnRate = 0.1`. -/
def maximumSpawnRate : ℚ := 1/10

/-- `static const float maximumElapsed = 30`. -/
def maximumElapsed : ℚ := 30

/-- `static const float gravity = -10.0 / targetFPS`. -/
def gravity : ℚ := -10 / targetFPS

/-- `static const float particleMaximumElapsed = 0.1`. -/
def particleMaximumElapsed : ℚ := 1/10

/-- A fruit slot as C static zero-initialisation leaves it
(type 0 = apple, all-zero vectors, disabled). -/
def defaultFruit : Fruit :=
  { type := FruitType.appleType
    position := { x := 0, y := 0 }
    velocity := { x := 0, y := 0 }
    enabled := false }

/-- A particle slot as C static zero-initialisation leaves it. -/
def defaultParticle : Particle :=
  { position := { x := 0, y := 0 }
    elapsed := 0
    enabled := false }

/-- All mutable globals of the C program in one record
(`state`, `fruits`, `particles`, `nextFruitIndex`, `nextParticleIndex`,
`score`, `fruitsSlashed`, `spawnElapsed`, `totalElapsed`, `slashing`). -/
structure GameData where
  state : GameState
  fruits : List Fruit
  particles : List Particle
  nextFruitIndex : ℕ
  nextParticleIndex : ℕ
  score : ℤ
  fruitsSlashed : ℤ
  spawnElapsed : ℚ
  totalElapsed : ℚ
  slashing : Bool
  deriving DecidableEq, Repr

/-- Per-frame environment values obtained from raylib in the C source:
`GetMousePosition()`, `IsMouseButtonPressed/Released(MOUSE_LEFT_BUTTON)`,
`GetFrameTime()`, and the `GetRandomValue` draws used by `SpawnFruit`
(`spawnValue` for the type, `spawnX` for the x position, `strafeValue` and
`thrustValue` for the velocity components). -/
structure Input where
  mousePosition : V2
  mousePressed : Bool
  mouseReleased : Bool
  frameTime : ℚ
  spawnValue : ℤ
  spawnX : ℤ
  strafeValue : ℤ
  thrustValue : ℤ
  deriving DecidableEq, Repr

/-- raylib `CheckCollisionPointCircle(point, center, radius)`: true iff the
distance from `point` to `center` is at most `radius`; stated squared to stay
in `ℚ` (equivalent for `radius ≥ 0` since square root is monotone). -/
def checkCollisionPointCircle (point center : V2) (radius : ℚ) : Bool :=
  decide ((point.x - center.x)^2 + (point.y - center.y)^2 ≤ radius^2)

/-- The collision test of `UpdatePlayState`:
`CheckCollisionPointCircle(GetMousePosition(), (Vector2){ position.x + fruitRadius, position.y + fruitRadius }, fruitRadius)`. -/
def fruitCollides (mouse : V2) (f : Fruit) : Bool :=
  checkCollisionPointCircle mouse
    { x := f.position.x + fruitRadius, y := f.position.y + fruitRadius } fruitRadius

/-- `fruit->enabled = false`. -/
def disableFruit (f : Fruit) : Fruit := { f with enabled := false }

/-- `particle.enabled = false`. -/
def disableParticle (p : Particle) : Particle := { p with enabled := false }

/-- `FromStartToPlayState` of the C source. -/
def FromStartToPlayState (g : GameData) : GameData :=
  { g with state := GameState.playState }

/-- `FromPlayToLoseState` of the C source: enter `loseState`, disable every
fruit and particle slot, reset `spawnElapsed`, `totalElapsed`, `slashing`. -/
def FromPlayToLoseState (g : GameData) : GameData :=
  { g with state := GameState.loseState
           fruits := g.fruits.map disableFruit
           particles := g.particles.map disableParticle
           spawnElapsed := 0
           totalElapsed := 0
           slashing := false }

/-- `FromLoseToStartState` of the C source: enter `startState`, zero
`fruitsSlashed` and `score`. -/
def FromLoseToStartState (g : GameData) : GameData :=
  { g with state := GameState.startState
           fruitsSlashed := 0
           score := 0 }

/-- The type-selection if-chain of `SpawnFruit`: `spawnValue <= appleSpawnCeiling`
gives apple, then banana, cherry, donut; if no branch fires (impossible for a
draw in `[1, 100]`) the slot keeps its previous type, exactly as the C code
leaves the field unassigned. -/
def selectFruitType (old : FruitType) (spawnValue : ℤ) : FruitType :=
  if spawnValue ≤ appleSpawnCeiling then FruitType.appleType
  else if spawnValue ≤ bananaSpawnCeiling then FruitType.bananaType
  else if spawnValue ≤ cherrySpawnCeiling then FruitType.cherryType
  else if spawnValue ≤ donutSpawnCeiling then FruitType.donutType
  else old

/-- `SpawnFruit` of the C source, with the three `GetRandomValue` results read
from the frame `Input`: write type, position
`(GetRandomValue(screenWidth * 0.25, screenWidth * 0.75), screenHeight)` and
velocity `(GetRandomValue(-5, 5), -GetRandomValue(5, 20))` into the slot at
`nextFruitIndex`, enable it, and advance the cursor mod `MAX_FRUIT_COUNT`.
(The sound call has no state effect.) -/
def SpawnFruit (input : Input) (g : GameData) : GameData :=
  let old := g.fruits.getD g.nextFruitIndex defaultFruit
  let f : Fruit :=
    { type := selectFruitType old.type input.spawnValue
      position := { x := (input.spawnX : ℚ), y := screenHeight }
      velocity := { x := (input.strafeValue : ℚ), y := -(input.thrustValue : ℚ) }
      enabled := true }
  { g with fruits := g.fruits.set g.nextFruitIndex f
           nextFruitIndex := (g.nextFruitIndex + 1) % MAX_FRUIT_COUNT }

/-- `SlashFruit(&fruits[i])` of the C source: disable the fruit, then apple
adds `appleScore` and one slash, banana `bananaScore`, cherry `cherryScore`;
donut triggers `FromPlayToLoseState`. -/
def SlashFruit (g : GameData) (i : ℕ) : GameData :=
  let f := g.fruits.getD i defaultFruit
  let g1 := { g with fruits := g.fruits.set i (disableFruit f) }
  match f.type with
  | FruitType.appleType =>
      { g1 with fruitsSlashed := g1.fruitsSlashed + 1, score := g1.score + appleScore }
  | FruitType.bananaType =>
      { g1 with fruitsSlashed := g1.fruitsSlashed + 1, score := g1.score + bananaScore }
  | FruitType.cherryType =>
      { g1 with fruitsSlashed := g1.fruitsSlashed + 1, score := g1.score + cherryScore }
  | FruitType.donutType => FromPlayToLoseState g1

/-- The motion-integration branch of the fruit loop:
`position += velocity; velocity.y -= gravity`. -/
def moveFruit (f : Fruit) : Fruit :=
  { f with position := { x := f.position.x + f.velocity.x, y := f.position.y + f.velocity.y }
           velocity := { x := f.velocity.x, y := f.velocity.y - gravity } }

/-- One iteration of the fruit loop of `UpdatePlayState` at index `i`:
skip disabled slots; disable a fruit below the bottom bound; else, if slashing
and the mouse hits the fruit circle, `SlashFruit`; else integrate motion.
`slashing` is read from the current state `g` because a donut slash earlier in
the same loop clears it. -/
def fruitStep (mouse : V2) (g : GameData) (i : ℕ) : GameData :=
  let f := g.fruits.getD i defaultFruit
  if f.enabled then
    if f.position.y > screenHeight then
      { g with fruits := g.fruits.set i (disableFruit f) }
    else if g.slashing && fruitCollides mouse f then
      SlashFruit g i
    else
      { g with fruits := g.fruits.set i (moveFruit f) }
  else g

/-- `totalElapsed += GetFrameTime(); spawnElapsed += GetFrameTime();`. -/
def timePhase (input : Input) (g : GameData) : GameData :=
  { g with totalElapsed := g.totalElapsed + input.frameTime
           spawnElapsed := g.spawnElapsed + input.frameTime }

/-- The mouse-button edge handling of `UpdatePlayState`: pressed sets
`slashing`, else released clears it. -/
def slashTogglePhase (input : Input) (g : GameData) : GameData :=
  if input.mousePressed then { g with slashing := true }
  else if input.mouseReleased then { g with slashing := false }
  else g

/-- The particle-append block of `UpdatePlayState`: while `slashing`, write a
fresh particle (mouse position, `elapsed = 0`, enabled) at `nextParticleIndex`
and advance the cursor mod `MAX_PARTICLE_COUNT`. -/
def particleAppendPhase (input : Input) (g : GameData) : GameData :=
  if g.slashing then
    { g with particles := g.particles.set g.nextParticleIndex
               { position := input.mousePosition, elapsed := 0, enabled := true }
             nextParticleIndex := (g.nextParticleIndex + 1) % MAX_PARTICLE_COUNT }
  else g

/-- Body of the particle-ageing loop for one particle:
`elapsed += GetFrameTime(); if (elapsed > particleMaximumElapsed) enabled = false;`. -/
def ageParticle (dt : ℚ) (p : Particle) : Particle :=
  if p.enabled then
    if p.elapsed + dt > particleMaximumElapsed then
      { p with elapsed := p.elapsed + dt, enabled := false }
    else
      { p with elapsed := p.elapsed + dt }
  else p

/-- The particle-ageing loop of `UpdatePlayState` over all 16 slots. -/
def particleAgePhase (input : Input) (g : GameData) : GameData :=
  { g with particles := g.particles.map (ageParticle input.frameTime) }

/-- `spawnElapsedThreshold` with its clamp:
`minimumSpawnRate - totalElapsed / maximumElapsed`, floored at
`maximumSpawnRate` by the conditional expression of line 310. -/
def spawnThreshold (totalElapsed : ℚ) : ℚ :=
  let threshold := minimumSpawnRate - totalElapsed / maximumElapsed
  if threshold < maximumSpawnRate then maximumSpawnRate else threshold

/-- The spawn-trigger block of `UpdatePlayState`: when `spawnElapsed` exceeds
the clamped threshold, zero `spawnElapsed` and call `SpawnFruit`. -/
def spawnPhase (input : Input) (g : GameData) : GameData :=
  if g.spawnElapsed > spawnThreshold g.totalElapsed then
    SpawnFruit input { g with spawnElapsed := 0 }
  else g

/-- The fruit loop of `UpdatePlayState`: `for (i = 0; i < MAX_FRUIT_COUNT; ++i)`
threading the whole game state, because `SlashFruit` on a donut mutates it
globally. -/
def fruitPhase (input : Input) (g : GameData) : GameData :=
  (List.range MAX_FRUIT_COUNT).foldl (fruitStep input.mousePosition) g

/-- `UpdatePlayState` of the C source, as the sequential composition of its
blocks in source order. -/
def UpdatePlayState (input : Input) (g : GameData) : GameData :=
  fruitPhase input
    (spawnPhase input
      (particleAgePhase input
        (particleAppendPhase input
          (slashTogglePhase input
            (timePhase input g)))))

/-- `UpdateStartState` of the C source. -/
def UpdateStartState (input : Input) (g : GameData) : GameData :=
  if input.mousePressed then FromStartToPlayState g else g

/-- `UpdateLoseState` of the C source. -/
def UpdateLoseState (input : Input) (g : GameData) : GameData :=
  if input.mousePressed then FromLoseToStartState g else g

/-- `Update` of the C source: dispatch on the current state.  (Music handling
has no game-state effect and is dropped.) -/
def Update (input : Input) (g : GameData) : GameData :=
  match g.state with
  | GameState.startState => UpdateStartState input g
  | GameState.playState => UpdatePlayState input g
  | GameState.loseState => UpdateLoseState input g

/-- The game state after the C `Initialize` ran: all pool slots disabled, both
cursors zero, `fruitsSlashed`, `spawnElapsed`, `totalElapsed` zero, `slashing`
false, `state = startState`.  (`score` is not assigned in `Initialize`; as a C
static it is zero-initialised.) -/
def initialGameData : GameData :=
  { state := GameState.startState
    fruits := List.replicate MAX_FRUIT_COUNT defaultFruit
    particles := List.replicate MAX_PARTICLE_COUNT defaultParticle
    nextFruitIndex := 0
    nextParticleIndex := 0
    score := 0
    fruitsSlashed := 0
    spawnElapsed := 0
    totalElapsed := 0
    slashing := false }

/-- Run the main loop for a list of per-frame inputs, starting from the
initial state. -/
def runFrames (inputs : List Input) : GameData :=
  inputs.foldl (fun g input => Update input g) initialGameData

/-- The structural pool invariant the C arrays give for free: both pools have
their declared size and both write cursors are in bounds. -/
def PoolInv (g : GameData) : Prop :=
  g.fruits.length = MAX_FRUIT_COUNT ∧ g.particles.length = MAX_PARTICLE_COUNT ∧
  g.nextFruitIndex < MAX_FRUIT_COUNT ∧ g.nextParticleIndex < MAX_PARTICLE_COUNT

/-- Concrete mouse position used to exercise the theorems on closed inputs. -/
def sampleMouse : V2 := { x := 132, y := 132 }

/-- Mouse position far away from `sampleFruit`, guaranteed not to collide. -/
def sampleMouseFar : V2 := { x := 500, y := 400 }

/-- A concrete enabled fruit of a given type sitting at (100, 100): the mouse
at `sampleMouse` is exactly at its collision-circle center. -/
def sampleFruit (t : FruitType) : Fruit :=
  { type := t
    position := { x := 100, y := 100 }
    velocity := { x := 1, y := -2 }
    enabled := true }

/-- A concrete enabled fruit that has already fallen below the bottom bound. -/
def fallenFruit : Fruit :=
  { type := FruitType.appleType
    position := { x := 100, y := 600 }
    velocity := { x := 0, y := 3 }
    enabled := true }

/-- A concrete play-state game holding a single fruit of the given type, with
the player slashing. -/
def sampleGame (t : FruitType) : GameData :=
  { state := GameState.playState
    fruits := [sampleFruit t]
    particles := [defaultParticle]
    nextFruitIndex := 0
    nextParticleIndex := 0
    score := 5
    fruitsSlashed := 2
    spawnElapsed := 0
    totalElapsed := 0
    slashing := true }

/-- `sampleGame` with its one fruit fallen below the bottom bound. -/
def fallenGame : GameData := { sampleGame FruitType.appleType with fruits := [fallenFruit] }

/-- `sampleGame` sitting in the lose state. -/
def loseGame : GameData := { sampleGame FruitType.appleType with state := GameState.loseState }

/-- `sampleGame` with an accumulated `spawnElapsed` far above the threshold. -/
def spawnReadyGame : GameData := { sampleGame FruitType.appleType with spawnElapsed := 2 }

/-- A concrete per-frame input: mouse at `sampleMouse`, no button edges,
1/60 s frame, and fixed random draws. -/
def sampleInput : Input :=
  { mousePosition := sampleMouse
    mousePressed := false
    mouseReleased := false
    frameTime := 1/60
    spawnValue := 60
    spawnX := 300
    strafeValue := 2
    thrustValue := 10 }

/-- `sampleInput` with the left button just pressed. -/
def pressInput : Input := { sampleInput with mousePressed := true }

end FruitNinja

namespace FruitNinja

theorem getD_set_self {α : Type} (l : List α) (i : ℕ) (a d : α) (h : i < l.length) :
    (l.set i a).getD i d = a := by
  rw [List.getD_eq_getElem _ d (by simpa using h)]
  simp [List.getElem_set_self]

theorem getD_map {α β : Type} (l : List α) (f : α → β) (i : ℕ) (d : β) (h : i < l.length) :
    (l.map f).getD i d = f (l.get ⟨i, h⟩) := by
  rw [List.getD_eq_getElem _ d (by simpa using h)]
  simp

/-- C2: `FromPlayToLoseState` enters the lose state, disables every fruit and
particle slot (pool sizes unchanged), resets `spawnElapsed`, `totalElapsed`
and `slashing`, and preserves `score` and `fruitsSlashed`. -/
theorem fromPlayToLose_spec (g : GameData) :
    (FromPlayToLoseState g).state = GameState.loseState ∧
    (FromPlayToLoseState g).fruits.length = g.fruits.length ∧
    (FromPlayToLoseState g).particles.length = g.particles.length ∧
    (∀ f ∈ (FromPlayToLoseState g).fruits, f.enabled = false) ∧
    (∀ p ∈ (FromPlayToLoseState g).particles, p.enabled = false) ∧
    (FromPlayToLoseState g).spawnElapsed = 0 ∧
    (FromPlayToLoseState g).totalElapsed = 0 ∧
    (FromPlayToLoseState g).slashing = false ∧
    (FromPlayToLoseState g).score = g.score ∧
    (FromPlayToLoseState g).fruitsSlashed = g.fruitsSlashed := by
  refine ⟨rfl, by simp [FromPlayToLoseState], by simp [FromPlayToLoseState], ?_, ?_,
    rfl, rfl, rfl, rfl, rfl⟩
  · intro f hf
    simp only [FromPlayToLoseState, List.mem_map] at hf
    obtain ⟨f0, _, rfl⟩ := hf
    rfl
  · intro p hp
    simp only [FromPlayToLoseState, List.mem_map] at hp
    obtain ⟨p0, _, rfl⟩ := hp
    rfl

/-- Closed-input instance of `fromPlayToLose_spec` at `sampleGame`. -/
theorem fromPlayToLose_spec_witness :
    (FromPlayToLoseState (sampleGame FruitType.appleType)).state = GameState.loseState ∧
    (FromPlayToLoseState (sampleGame FruitType.appleType)).fruits.length =
      (sampleGame FruitType.appleType).fruits.length ∧
    (FromPlayToLoseState (sampleGame FruitType.appleType)).particles.length =
      (sampleGame FruitType.appleType).particles.length ∧
    (∀ f ∈ (FromPlayToLoseState (sampleGame FruitType.appleType)).fruits, f.enabled = false) ∧
    (∀ p ∈ (FromPlayToLoseState (sampleGame FruitType.appleType)).particles, p.enabled = false) ∧
    (FromPlayToLoseState (sampleGame FruitType.appleType)).spawnElapsed = 0 ∧
    (FromPlayToLoseState (sampleGame FruitType.appleType)).totalElapsed = 0 ∧
    (FromPlayToLoseState (sampleGame FruitType.appleType)).slashing = false ∧
    (FromPlayToLoseState (sampleGame FruitType.appleType)).score = 5 ∧
    (FromPlayToLoseState (sampleGame FruitType.appleType)).fruitsSlashed = 2 :=
  fromPlayToLose_spec (sampleGame FruitType.appleType)

/-- C8: a primary-input press in the lose state runs `FromLoseToStartState`,
which enters the start state, zeroes `score` and `fruitsSlashed`, and leaves
every other session field and both pools untouched. -/
theorem loseToStart_spec (input : Input) (g : GameData)
    (hstate : g.state = GameState.loseState) (hpress : input.mousePressed = true) :
    Update input g = FromLoseToStartState g ∧
    (FromLoseToStartState g).state = GameState.startState ∧
    (FromLoseToStartState g).score = 0 ∧
    (FromLoseToStartState g).fruitsSlashed = 0 ∧
    (FromLoseToStartState g).fruits = g.fruits ∧
    (FromLoseToStartState g).particles = g.particles ∧
    (FromLoseToStartState g).nextFruitIndex = g.nextFruitIndex ∧
    (FromLoseToStartState g).nextParticleIndex = g.nextParticleIndex ∧
    (FromLoseToStartState g).spawnElapsed = g.spawnElapsed ∧
    (FromLoseToStartState g).totalElapsed = g.totalElapsed ∧
    (FromLoseToStartState g).slashing = g.slashing := by
  refine ⟨?_, rfl, rfl, rfl, rfl, rfl, rfl, rfl, rfl, rfl, rfl⟩
  simp [Update, hstate, UpdateLoseState, hpress]

/-- Closed-input instance of `loseToStart_spec` at `loseGame` / `pressInput`. -/
theorem loseToStart_spec_witness :
    Update pressInput loseGame = FromLoseToStartState loseGame ∧
    (FromLoseToStartState loseGame).state = GameState.startState ∧
    (FromLoseToStartState loseGame).score = 0 ∧
    (FromLoseToStartState loseGame).fruitsSlashed = 0 ∧
    (FromLoseToStartState loseGame).fruits = loseGame.fruits ∧
    (FromLoseToStartState loseGame).particles = loseGame.particles ∧
    (FromLoseToStartState loseGame).nextFruitIndex = loseGame.nextFruitIndex ∧
    (FromLoseToStartState loseGame).nextParticleIndex = loseGame.nextParticleIndex ∧
    (FromLoseToStartState loseGame).spawnElapsed = loseGame.spawnElapsed ∧
    (FromLoseToStartState loseGame).totalElapsed = loseGame.totalElapsed ∧
    (FromLoseToStartState loseGame).slashing = loseGame.slashing :=
  loseToStart_spec pressInput loseGame rfl rfl

theorem fruitStep_eq_disable (mouse : V2) (g : GameData) (i : ℕ)
    (hen : (g.fruits.getD i defaultFruit).enabled = true)
    (hy : (g.fruits.getD i defaultFruit).position.y > screenHeight) :
    fruitStep mouse g i =
      { g with fruits := g.fruits.set i (disableFruit (g.fruits.getD i defaultFruit)) } := by
  unfold fruitStep
  rw [if_pos hen, if_pos hy]

theorem fruitStep_eq_slashFruit (mouse : V2) (g : GameData) (i : ℕ)
    (hen : (g.fruits.getD i defaultFruit).enabled = true)
    (hy : ¬ (g.fruits.getD i defaultFruit).position.y > screenHeight)
    (hs : g.slashing = true)
    (hc : fruitCollides mouse (g.fruits.getD i defaultFruit) = true) :
    fruitStep mouse g i = SlashFruit g i := by
  unfold fruitStep
  rw [if_pos hen, if_neg hy, if_pos (by rw [hs, hc]; rfl)]

theorem fruitStep_eq_move (mouse : V2) (g : GameData) (i : ℕ)
    (hen : (g.fruits.getD i defaultFruit).enabled = true)
    (hy : ¬ (g.fruits.getD i defaultFruit).position.y > screenHeight)
    (hnsc : (g.slashing && fruitCollides mouse (g.fruits.getD i defaultFruit)) = false) :
    fruitStep mouse g i =
      { g with fruits := g.fruits.set i (moveFruit (g.fruits.getD i defaultFruit)) } := by
  unfold fruitStep
  rw [if_pos hen, if_neg hy, if_neg (by rw [hnsc]; simp)]

theorem slashFruit_slot (g : GameData) (i : ℕ) (hlen : i < g.fruits.length) :
    (SlashFruit g i).fruits.getD i defaultFruit =
      disableFruit (g.fruits.getD i defaultFruit) := by
  have h1 : ∀ a : Fruit, (g.fruits.set i a).getD i defaultFruit = a :=
    fun a => getD_set_self _ _ _ _ hlen
  have h2 : ∀ a : Fruit,
      ((g.fruits.set i a).map disableFruit).getD i defaultFruit = disableFruit a := by
    intro a
    rw [getD_map _ _ _ _ (by simpa using hlen)]
    simp [List.get_eq_getElem, List.getElem_set_self]
  cases ht : (g.fruits.getD i defaultFruit).type <;>
    simp only [SlashFruit, FromPlayToLoseState, ht] <;>
    first
      | exact h1 _
      | exact h2 _

theorem slashFruit_counters (g : GameData) (i : ℕ) :
    ((g.fruits.getD i defaultFruit).type = FruitType.appleType →
      (SlashFruit g i).score = g.score + 1 ∧
      (SlashFruit g i).fruitsSlashed = g.fruitsSlashed + 1 ∧
      (SlashFruit g i).state = g.state) ∧
    ((g.fruits.getD i defaultFruit).type = FruitType.bananaType →
      (SlashFruit g i).score = g.score + 3 ∧
      (SlashFruit g i).fruitsSlashed = g.fruitsSlashed + 1 ∧
      (SlashFruit g i).state = g.state) ∧
    ((g.fruits.getD i defaultFruit).type = FruitType.cherryType →
      (SlashFruit g i).score = g.score + 9 ∧
      (SlashFruit g i).fruitsSlashed = g.fruitsSlashed + 1 ∧
      (SlashFruit g i).state = g.state) ∧
    ((g.fruits.getD i defaultFruit).type = FruitType.donutType →
      (SlashFruit g i).score = g.score ∧
      (SlashFruit g i).fruitsSlashed = g.fruitsSlashed ∧
      (SlashFruit g i).state = GameState.loseState) := by
  refine ⟨?_, ?_, ?_, ?_⟩ <;> intro ht <;>
    simp only [SlashFruit, FromPlayToLoseState, ht, appleScore, bananaScore, cherryScore] <;>
    norm_num

/-- C1: when an enabled fruit is hit by a slash in the play-state fruit loop
(not below the bottom bound, `slashing` on, mouse inside the fruit circle),
an apple adds exactly 1 to `score` and 1 to `fruitsSlashed`, a banana 3 and 1,
a cherry 9 and 1, all leaving the state unchanged, while a donut leaves both
counters unchanged and forces the lose state; in every case the slot's
`enabled` flag becomes false. -/
theorem slash_scoring_spec (mouse : V2) (g : GameData) (i : ℕ) (f : Fruit)
    (hf : g.fruits.getD i defaultFruit = f)
    (hlen : i < g.fruits.length)
    (hen : f.enabled = true)
    (hy : ¬ f.position.y > screenHeight)
    (hs : g.slashing = true)
    (hc : fruitCollides mouse f = true) :
    (f.type = FruitType.appleType →
      (fruitStep mouse g i).score = g.score + 1 ∧
      (fruitStep mouse g i).fruitsSlashed = g.fruitsSlashed + 1 ∧
      (fruitStep mouse g i).state = g.state) ∧
    (f.type = FruitType.bananaType →
      (fruitStep mouse g i).score = g.score + 3 ∧
      (fruitStep mouse g i).fruitsSlashed = g.fruitsSlashed + 1 ∧
      (fruitStep mouse g i).state = g.state) ∧
    (f.type = FruitType.cherryType →
      (fruitStep mouse g i).score = g.score + 9 ∧
      (fruitStep mouse g i).fruitsSlashed = g.fruitsSlashed + 1 ∧
      (fruitStep mouse g i).state = g.state) ∧
    (f.type = FruitType.donutType →
      (fruitStep mouse g i).score = g.score ∧
      (fruitStep mouse g i).fruitsSlashed = g.fruitsSlashed ∧
      (fruitStep mouse g i).state = GameState.loseState) ∧
    ((fruitStep mouse g i).fruits.getD i defaultFruit).enabled = false := by
  subst hf
  have hstep := fruitStep_eq_slashFruit mouse g i hen hy hs hc
  rw [hstep]
  have hcnt := slashFruit_counters g i
  refine ⟨hcnt.1, hcnt.2.1, hcnt.2.2.1, hcnt.2.2.2, ?_⟩
  rw [slashFruit_slot g i hlen]
  rfl

/-- Closed-input instance of `slash_scoring_spec` for an apple and a donut. -/
theorem slash_scoring_spec_witness :
    (fruitStep sampleMouse (sampleGame FruitType.appleType) 0).score = 5 + 1 ∧
    (fruitStep sampleMouse (sampleGame FruitType.appleType) 0).fruitsSlashed = 2 + 1 ∧
    (fruitStep sampleMouse (sampleGame FruitType.donutType) 0).score = 5 ∧
    (fruitStep sampleMouse (sampleGame FruitType.donutType) 0).fruitsSlashed = 2 ∧
    (fruitStep sampleMouse (sampleGame FruitType.donutType) 0).state = GameState.loseState ∧
    ((fruitStep sampleMouse (sampleGame FruitType.appleType) 0).fruits.getD 0 defaultFruit).enabled
      = false := by
  have ha := slash_scoring_spec sampleMouse (sampleGame FruitType.appleType) 0
    (sampleFruit FruitType.appleType) rfl (by simp [sampleGame]) rfl
    (by norm_num [sampleFruit, screenHeight]) rfl
    (by norm_num [fruitCollides, checkCollisionPointCircle, sampleMouse, sampleFruit, fruitRadius])
  have hd := slash_scoring_spec sampleMouse (sampleGame FruitType.donutType) 0
    (sampleFruit FruitType.donutType) rfl (by simp [sampleGame]) rfl
    (by norm_num [sampleFruit, screenHeight]) rfl
    (by norm_num [fruitCollides, checkCollisionPointCircle, sampleMouse, sampleFruit, fruitRadius])
  exact ⟨(ha.1 rfl).1, (ha.1 rfl).2.1, (hd.2.2.2.1 rfl).1, (hd.2.2.2.1 rfl).2.1,
    (hd.2.2.2.1 rfl).2.2, ha.2.2.2.2⟩

/-- C3: the play-state fruit loop treats every enabled fruit in this order:
first, below the bottom bound it is disabled with no score change; else, under
an active slash with the mouse inside the radius-32 circle centered at the
fruit position offset by (32, 32), the fruit is resolved by `SlashFruit` with
its position unmoved; else motion is integrated, adding the velocity to the
position and subtracting the negative gravity constant from the vertical
velocity (accelerating the fruit downward, in screen coordinates). -/
theorem fruit_update_order_spec (mouse : V2) (g : GameData) (i : ℕ) (f : Fruit)
    (hf : g.fruits.getD i defaultFruit = f)
    (hlen : i < g.fruits.length)
    (hen : f.enabled = true) :
    (f.position.y > screenHeight →
      fruitStep mouse g i = { g with fruits := g.fruits.set i (disableFruit f) } ∧
      (fruitStep mouse g i).score = g.score ∧
      (fruitStep mouse g i).fruitsSlashed = g.fruitsSlashed) ∧
    (¬ f.position.y > screenHeight → g.slashing = true → fruitCollides mouse f = true →
      fruitStep mouse g i = SlashFruit g i ∧
      ((fruitStep mouse g i).fruits.getD i defaultFruit).position = f.position) ∧
    (¬ f.position.y > screenHeight → ¬ (g.slashing = true ∧ fruitCollides mouse f = true) →
      fruitStep mouse g i = { g with fruits := g.fruits.set i (moveFruit f) } ∧
      (moveFruit f).position.x = f.position.x + f.velocity.x ∧
      (moveFruit f).position.y = f.position.y + f.velocity.y ∧
      (moveFruit f).velocity.y = f.velocity.y - gravity ∧
      gravity < 0) := by
  subst hf
  refine ⟨?_, ?_, ?_⟩
  · intro hy
    have hstep := fruitStep_eq_disable mouse g i hen hy
    exact ⟨hstep, by rw [hstep], by rw [hstep]⟩
  · intro hy hs hc
    have hstep := fruitStep_eq_slashFruit mouse g i hen hy hs hc
    refine ⟨hstep, ?_⟩
    rw [hstep, slashFruit_slot g i hlen]
    rfl
  · intro hy hnsc
    have hb : (g.slashing && fruitCollides mouse (g.fruits.getD i defaultFruit)) = false := by
      cases h1 : g.slashing <;> cases h2 : fruitCollides mouse (g.fruits.getD i defaultFruit) <;>
        simp_all
    exact ⟨fruitStep_eq_move mouse g i hen hy hb, rfl, rfl, rfl,
      by norm_num [gravity, targetFPS]⟩

/-- Closed-input instance of `fruit_update_order_spec`: a fallen fruit is
disabled without score change, and a fruit missed by the mouse moves. -/
theorem fruit_update_order_spec_witness :
    fruitStep sampleMouse fallenGame 0 = { fallenGame with fruits := [disableFruit fallenFruit] } ∧
    (fruitStep sampleMouse fallenGame 0).score = 5 ∧
    fruitStep sampleMouseFar (sampleGame FruitType.appleType) 0 =
      { sampleGame FruitType.appleType with
          fruits := [moveFruit (sampleFruit FruitType.appleType)] } := by
  have h1 := (fruit_update_order_spec sampleMouse fallenGame 0 fallenFruit rfl
    (by simp [fallenGame]) rfl).1 (by norm_num [fallenFruit, screenHeight])
  have h2 := (fruit_update_order_spec sampleMouseFar (sampleGame FruitType.appleType) 0
    (sampleFruit FruitType.appleType) rfl (by simp [sampleGame]) rfl).2.2
    (by norm_num [sampleFruit, screenHeight])
    (by norm_num [sampleGame, fruitCollides, checkCollisionPointCircle, sampleMouseFar,
      sampleFruit, fruitRadius])
  exact ⟨h1.1, h1.2.1, h2.1⟩

/-- C4: in the play state, a spawn is triggered exactly when `spawnElapsed`
exceeds the clamped threshold `max (minimumSpawnRate - totalElapsed /
maximumElapsed) maximumSpawnRate` (that is, max(1 − totalElapsed/30, 0.1));
on trigger `spawnElapsed` is zeroed before `SpawnFruit` runs and stays zero
after it; the threshold is monotonically non-increasing in `totalElapsed` and
never drops below `maximumSpawnRate` = 0.1 s. -/
theorem spawn_trigger_spec (input : Input) (g : GameData) :
    spawnThreshold g.totalElapsed =
      max (minimumSpawnRate - g.totalElapsed / maximumElapsed) maximumSpawnRate ∧
    (g.spawnElapsed > spawnThreshold g.totalElapsed →
      spawnPhase input g = SpawnFruit input { g with spawnElapsed := 0 } ∧
      (spawnPhase input g).spawnElapsed = 0) ∧
    (¬ g.spawnElapsed > spawnThreshold g.totalElapsed → spawnPhase input g = g) ∧
    (∀ t1 t2 : ℚ, t1 ≤ t2 → spawnThreshold t2 ≤ spawnThreshold t1) ∧
    (∀ t : ℚ, maximumSpawnRate ≤ spawnThreshold t) := by
  refine ⟨?_, ?_, ?_, ?_, ?_⟩
  · unfold spawnThreshold
    dsimp only
    split_ifs with h
    · exact (max_eq_right h.le).symm
    · exact (max_eq_left (not_lt.mp h)).symm
  · intro h
    unfold spawnPhase
    rw [if_pos h]
    exact ⟨rfl, rfl⟩
  · intro h
    unfold spawnPhase
    rw [if_neg h]
  · intro t1 t2 h
    unfold spawnThreshold
    simp only [minimumSpawnRate, maximumSpawnRate, maximumElapsed]
    split_ifs <;> linarith
  · intro t
    unfold spawnThreshold
    dsimp only
    split_ifs with h
    · exact le_rfl
    · exact not_lt.mp h

/-- Closed-input instance of `spawn_trigger_spec`: with `spawnElapsed = 2`
and `totalElapsed = 0` the threshold is exceeded and a fruit spawns. -/
theorem spawn_trigger_spec_witness :
    spawnPhase sampleInput spawnReadyGame =
      SpawnFruit sampleInput { spawnReadyGame with spawnElapsed := 0 } ∧
    (spawnPhase sampleInput spawnReadyGame).spawnElapsed = 0 :=
  (spawn_trigger_spec sampleInput spawnReadyGame).2.1
    (by norm_num [spawnReadyGame, sampleGame, spawnThreshold, minimumSpawnRate,
      maximumSpawnRate, maximumElapsed])

/-- C5: for every draw `d` in [1, 100] the spawner picks Apple iff `d ≤ 50`,
Banana iff `50 < d ≤ 75`, Cherry iff `75 < d ≤ 85`, Donut iff `85 < d ≤ 100`,
so exactly 50, 25, 10 and 15 of the 100 equiprobable draws map to the four
types (50% / 25% / 10% / 15%). -/
theorem spawn_type_spec (old : FruitType) :
    (∀ d : ℤ, 1 ≤ d → d ≤ 100 →
      ((selectFruitType old d = FruitType.appleType ↔ d ≤ 50) ∧
       (selectFruitType old d = FruitType.bananaType ↔ (50 < d ∧ d ≤ 75)) ∧
       (selectFruitType old d = FruitType.cherryType ↔ (75 < d ∧ d ≤ 85)) ∧
       (selectFruitType old d = FruitType.donutType ↔ (85 < d ∧ d ≤ 100)))) ∧
    ((Finset.Icc (1:ℤ) 100).filter (fun d => selectFruitType old d = FruitType.appleType)).card
      = 50 ∧
    ((Finset.Icc (1:ℤ) 100).filter (fun d => selectFruitType old d = FruitType.bananaType)).card
      = 25 ∧
    ((Finset.Icc (1:ℤ) 100).filter (fun d => selectFruitType old d = FruitType.cherryType)).card
      = 10 ∧
    ((Finset.Icc (1:ℤ) 100).filter (fun d => selectFruitType old d = FruitType.donutType)).card
      = 15 := by
  refine ⟨?_, ?_, ?_, ?_, ?_⟩
  · intro d h1 h2
    simp only [selectFruitType, appleSpawnCeiling, bananaSpawnCeiling, cherrySpawnCeiling,
      donutSpawnCeiling]
    split_ifs with ha hb hc <;> refine ⟨?_, ?_, ?_, ?_⟩ <;> simp_all <;> omega
  · cases old <;> decide
  · cases old <;> decide
  · cases old <;> decide
  · cases old <;> decide

/-- Closed-input instance of `spawn_type_spec` at the draw 60 (a banana). -/
theorem spawn_type_spec_witness :
    (selectFruitType FruitType.appleType 60 = FruitType.appleType ↔ (60:ℤ) ≤ 50) ∧
    (selectFruitType FruitType.appleType 60 = FruitType.bananaType ↔
      ((50:ℤ) < 60 ∧ (60:ℤ) ≤ 75)) ∧
    (selectFruitType FruitType.appleType 60 = FruitType.cherryType ↔
      ((75:ℤ) < 60 ∧ (60:ℤ) ≤ 85)) ∧
    (selectFruitType FruitType.appleType 60 = FruitType.donutType ↔
      ((85:ℤ) < 60 ∧ (60:ℤ) ≤ 100)) :=
  (spawn_type_spec FruitType.appleType).1 60 (by decide) (by decide)

/-- C6: a spawned fruit is written to the slot at the fruit write cursor with
`enabled = true`, vertical position at the bottom edge (`screenHeight`),
horizontal position inside the middle 50% of the screen width (the draw is in
[240, 720] = [screenWidth/4, 3·screenWidth/4]), horizontal velocity in
[-5, 5], vertical velocity in [-20, -5] (upward); the cursor then advances by
one modulo the pool capacity 48. -/
theorem spawn_init_spec (input : Input) (g g' : GameData)
    (hg' : SpawnFruit input g = g')
    (hlen : g.nextFruitIndex < g.fruits.length)
    (hx1 : (240:ℤ) ≤ input.spawnX) (hx2 : input.spawnX ≤ 720)
    (hs1 : minimumFruitStrafe ≤ input.strafeValue) (hs2 : input.strafeValue ≤ maximumFruitStrafe)
    (ht1 : minimumFruitThrust ≤ input.thrustValue) (ht2 : input.thrustValue ≤ maximumFruitThrust) :
    (g'.fruits.getD g.nextFruitIndex defaultFruit).enabled = true ∧
    (g'.fruits.getD g.nextFruitIndex defaultFruit).position.y = screenHeight ∧
    screenWidth * (1/4) ≤ (g'.fruits.getD g.nextFruitIndex defaultFruit).position.x ∧
    (g'.fruits.getD g.nextFruitIndex defaultFruit).position.x ≤ screenWidth * (3/4) ∧
    (-5:ℚ) ≤ (g'.fruits.getD g.nextFruitIndex defaultFruit).velocity.x ∧
    (g'.fruits.getD g.nextFruitIndex defaultFruit).velocity.x ≤ 5 ∧
    (-20:ℚ) ≤ (g'.fruits.getD g.nextFruitIndex defaultFruit).velocity.y ∧
    (g'.fruits.getD g.nextFruitIndex defaultFruit).velocity.y ≤ -5 ∧
    g'.nextFruitIndex = (g.nextFruitIndex + 1) % 48 := by
  subst hg'
  have key : ∀ nf : Fruit,
      (g.fruits.set g.nextFruitIndex nf).getD g.nextFruitIndex defaultFruit = nf :=
    fun nf => getD_set_self _ _ _ _ hlen
  have hx1' : ((240:ℤ):ℚ) ≤ (input.spawnX:ℚ) := Int.cast_le.mpr hx1
  have hx2' : ((input.spawnX:ℤ):ℚ) ≤ ((720:ℤ):ℚ) := Int.cast_le.mpr hx2
  have hs1' : ((-5:ℤ):ℚ) ≤ (input.strafeValue:ℚ) := Int.cast_le.mpr hs1
  have hs2' : ((input.strafeValue:ℤ):ℚ) ≤ ((5:ℤ):ℚ) := Int.cast_le.mpr hs2
  have ht1' : ((5:ℤ):ℚ) ≤ (input.thrustValue:ℚ) := Int.cast_le.mpr ht1
  have ht2' : ((input.thrustValue:ℤ):ℚ) ≤ ((20:ℤ):ℚ) := Int.cast_le.mpr ht2
  push_cast at hx1' hx2' hs1' hs2' ht1' ht2'
  refine ⟨?_, ?_, ?_, ?_, ?_, ?_, ?_, ?_, ?_⟩ <;> simp only [SpawnFruit, key]
  · norm_num [screenWidth]
    linarith
  · norm_num [screenWidth]
    linarith
  · linarith
  · linarith
  · linarith
  · linarith
  · rfl

/-- Closed-input instance of `spawn_init_spec` at `sampleInput`. -/
theorem spawn_init_spec_witness :
    ((SpawnFruit sampleInput (sampleGame FruitType.appleType)).fruits.getD 0
        defaultFruit).enabled = true ∧
    ((SpawnFruit sampleInput (sampleGame FruitType.appleType)).fruits.getD 0
        defaultFruit).position.y = screenHeight ∧
    screenWidth * (1/4) ≤ ((SpawnFruit sampleInput (sampleGame FruitType.appleType)).fruits.getD 0
        defaultFruit).position.x ∧
    ((SpawnFruit sampleInput (sampleGame FruitType.appleType)).fruits.getD 0
        defaultFruit).position.x ≤ screenWidth * (3/4) ∧
    (-5:ℚ) ≤ ((SpawnFruit sampleInput (sampleGame FruitType.appleType)).fruits.getD 0
        defaultFruit).velocity.x ∧
    ((SpawnFruit sampleInput (sampleGame FruitType.appleType)).fruits.getD 0
        defaultFruit).velocity.x ≤ 5 ∧
    (-20:ℚ) ≤ ((SpawnFruit sampleInput (sampleGame FruitType.appleType)).fruits.getD 0
        defaultFruit).velocity.y ∧
    ((SpawnFruit sampleInput (sampleGame FruitType.appleType)).fruits.getD 0
        defaultFruit).velocity.y ≤ -5 ∧
    (SpawnFruit sampleInput (sampleGame FruitType.appleType)).nextFruitIndex = (0 + 1) % 48 :=
  spawn_init_spec sampleInput (sampleGame FruitType.appleType) _ rfl
    (by simp [sampleGame]) (by decide) (by decide) (by decide) (by decide) (by decide) (by decide)

/-- C7: while the slash input is held, the play-state update appends exactly
one particle at the mouse position with `elapsed = 0`, `enabled = true` at the
particle write cursor, which then advances modulo 16 (and appends none when
not slashing); each frame every enabled particle's `elapsed` grows by the
frame delta, and it is disabled exactly when the new `elapsed` exceeds
`particleMaximumElapsed` = 0.1 s. -/
theorem particle_trail_spec (input : Input) (g : GameData) :
    (g.slashing = true → g.nextParticleIndex < g.particles.length →
      (particleAppendPhase input g).particles.getD g.nextParticleIndex defaultParticle =
        { position := input.mousePosition, elapsed := 0, enabled := true } ∧
      (particleAppendPhase input g).nextParticleIndex = (g.nextParticleIndex + 1) % 16) ∧
    (g.slashing = false → particleAppendPhase input g = g) ∧
    (particleAgePhase input g).particles = g.particles.map (ageParticle input.frameTime) ∧
    (∀ p : Particle, p.enabled = true →
      (ageParticle input.frameTime p).elapsed = p.elapsed + input.frameTime ∧
      ((ageParticle input.frameTime p).enabled = false ↔
        p.elapsed + input.frameTime > particleMaximumElapsed)) := by
  refine ⟨?_, ?_, rfl, ?_⟩
  · intro hs hlen
    unfold particleAppendPhase
    rw [if_pos hs]
    exact ⟨getD_set_self _ _ _ _ hlen, rfl⟩
  · intro hs
    unfold particleAppendPhase
    rw [if_neg (by simp [hs])]
  · intro p hp
    unfold ageParticle
    rw [if_pos hp]
    split_ifs with h
    · exact ⟨rfl, by simp [h]⟩
    · exact ⟨rfl, by simp [hp, h]⟩

/-- Closed-input instance of `particle_trail_spec` at `sampleGame` (slashing). -/
theorem particle_trail_spec_witness :
    (particleAppendPhase sampleInput (sampleGame FruitType.appleType)).particles.getD 0
        defaultParticle = { position := sampleMouse, elapsed := 0, enabled := true } ∧
    (particleAppendPhase sampleInput (sampleGame FruitType.appleType)).nextParticleIndex =
      (0 + 1) % 16 :=
  (particle_trail_spec sampleInput (sampleGame FruitType.appleType)).1 rfl
    (by simp [sampleGame])

theorem slashFruit_shape (g : GameData) (i : ℕ) :
    (SlashFruit g i).fruits.length = g.fruits.length ∧
    (SlashFruit g i).particles.length = g.particles.length ∧
    (SlashFruit g i).nextFruitIndex = g.nextFruitIndex ∧
    (SlashFruit g i).nextParticleIndex = g.nextParticleIndex := by
  cases ht : (g.fruits.getD i defaultFruit).type <;>
    simp only [SlashFruit, FromPlayToLoseState, ht] <;>
    simp [List.length_set]

theorem fruitStep_shape (mouse : V2) (g : GameData) (i : ℕ) :
    (fruitStep mouse g i).fruits.length = g.fruits.length ∧
    (fruitStep mouse g i).particles.length = g.particles.length ∧
    (fruitStep mouse g i).nextFruitIndex = g.nextFruitIndex ∧
    (fruitStep mouse g i).nextParticleIndex = g.nextParticleIndex := by
  unfold fruitStep
  dsimp only
  split_ifs
  · simp
  · exact slashFruit_shape g i
  · simp
  · exact ⟨rfl, rfl, rfl, rfl⟩

theorem foldl_fruitStep_shape (mouse : V2) (l : List ℕ) (g : GameData) :
    ((l.foldl (fruitStep mouse) g).fruits.length = g.fruits.length ∧
     (l.foldl (fruitStep mouse) g).particles.length = g.particles.length ∧
     (l.foldl (fruitStep mouse) g).nextFruitIndex = g.nextFruitIndex ∧
     (l.foldl (fruitStep mouse) g).nextParticleIndex = g.nextParticleIndex) := by
  induction l generalizing g with
  | nil => exact ⟨rfl, rfl, rfl, rfl⟩
  | cons i l ih =>
    simp only [List.foldl_cons]
    obtain ⟨a, b, c, d⟩ := ih (fruitStep mouse g i)
    obtain ⟨a2, b2, c2, d2⟩ := fruitStep_shape mouse g i
    exact ⟨a.trans a2, b.trans b2, c.trans c2, d.trans d2⟩

theorem timePhase_poolInv (input : Input) (g : GameData) (h : PoolInv g) :
    PoolInv (timePhase input g) := h

theorem slashTogglePhase_poolInv (input : Input) (g : GameData) (h : PoolInv g) :
    PoolInv (slashTogglePhase input g) := by
  unfold slashTogglePhase
  split_ifs <;> exact h

theorem particleAppendPhase_poolInv (input : Input) (g : GameData) (h : PoolInv g) :
    PoolInv (particleAppendPhase input g) := by
  obtain ⟨h1, h2, h3, h4⟩ := h
  unfold particleAppendPhase
  split_ifs
  · exact ⟨h1, by simpa using h2, h3, Nat.mod_lt _ (by norm_num [MAX_PARTICLE_COUNT])⟩
  · exact ⟨h1, h2, h3, h4⟩

theorem particleAgePhase_poolInv (input : Input) (g : GameData) (h : PoolInv g) :
    PoolInv (particleAgePhase input g) := by
  obtain ⟨h1, h2, h3, h4⟩ := h
  exact ⟨h1, by simpa [particleAgePhase] using h2, h3, h4⟩

theorem spawnFruit_poolInv (input : Input) (g : GameData) (h : PoolInv g) :
    PoolInv (SpawnFruit input g) := by
  obtain ⟨h1, h2, h3, h4⟩ := h
  exact ⟨by simpa [SpawnFruit] using h1, h2,
    Nat.mod_lt _ (by norm_num [MAX_FRUIT_COUNT]), h4⟩

theorem spawnPhase_poolInv (input : Input) (g : GameData) (h : PoolInv g) :
    PoolInv (spawnPhase input g) := by
  obtain ⟨h1, h2, h3, h4⟩ := h
  unfold spawnPhase
  split_ifs
  · exact spawnFruit_poolInv input _ ⟨h1, h2, h3, h4⟩
  · exact ⟨h1, h2, h3, h4⟩

theorem fruitPhase_poolInv (input : Input) (g : GameData) (h : PoolInv g) :
    PoolInv (fruitPhase input g) := by
  obtain ⟨a, b, c, d⟩ :=
    foldl_fruitStep_shape input.mousePosition (List.range MAX_FRUIT_COUNT) g
  exact ⟨a.trans h.1, b.trans h.2.1, by rw [fruitPhase] at *; rw [c]; exact h.2.2.1,
    by rw [fruitPhase] at *; rw [d]; exact h.2.2.2⟩

theorem updatePlayState_poolInv (input : Input) (g : GameData) (h : PoolInv g) :
    PoolInv (UpdatePlayState input g) :=
  fruitPhase_poolInv input _
    (spawnPhase_poolInv input _
      (particleAgePhase_poolInv input _
        (particleAppendPhase_poolInv input _
          (slashTogglePhase_poolInv input _
            (timePhase_poolInv input _ h)))))

theorem update_poolInv (input : Input) (g : GameData) (h : PoolInv g) :
    PoolInv (Update input g) := by
  cases hs : g.state
  · simp only [Update, hs, UpdateStartState]
    split_ifs <;> exact h
  · simp only [Update, hs]
    exact updatePlayState_poolInv input g h
  · simp only [Update, hs, UpdateLoseState]
    split_ifs <;> exact h

theorem foldl_update_poolInv (inputs : List Input) :
    ∀ g : GameData, PoolInv g →
      PoolInv (inputs.foldl (fun g input => Update input g) g) := by
  induction inputs with
  | nil => exact fun g h => h
  | cons i l ih => exact fun g h => ih _ (update_poolInv i g h)

theorem initial_poolInv : PoolInv initialGameData :=
  ⟨by simp [initialGameData], by simp [initialGameData],
   by norm_num [initialGameData, MAX_FRUIT_COUNT],
   by norm_num [initialGameData, MAX_PARTICLE_COUNT]⟩

theorem runFrames_poolInv (inputs : List Input) : PoolInv (runFrames inputs) :=
  foldl_update_poolInv inputs initialGameData initial_poolInv

/-- C9: along every sequence of frames from the initial state, the number of
enabled fruit slots never exceeds the pool capacity 48 and the number of
enabled particle slots never exceeds 16. -/
theorem pool_capacity_spec (inputs : List Input) :
    ((runFrames inputs).fruits.filter (fun f => f.enabled)).length ≤ 48 ∧
    ((runFrames inputs).particles.filter (fun p => p.enabled)).length ≤ 16 := by
  obtain ⟨h1, h2, _, _⟩ := runFrames_poolInv inputs
  exact ⟨le_trans (List.length_filter_le _ _) (le_of_eq h1),
    le_trans (List.length_filter_le _ _) (le_of_eq h2)⟩

/-- C10: along every sequence of frames from the initial state, the fruit
write cursor stays in [0, 48) and the particle write cursor in [0, 16) while
the pools keep their full length 48 and 16 — so every pool write through a
cursor is in bounds; the fruit loop never touches either cursor, and none of
the three state transitions resets either cursor. -/
theorem cursor_bounds_spec (inputs : List Input) :
    (runFrames inputs).nextFruitIndex < 48 ∧
    (runFrames inputs).nextParticleIndex < 16 ∧
    (runFrames inputs).fruits.length = 48 ∧
    (runFrames inputs).particles.length = 16 ∧
    (∀ input : Input, ∀ g : GameData,
      (fruitPhase input g).nextFruitIndex = g.nextFruitIndex ∧
      (fruitPhase input g).nextParticleIndex = g.nextParticleIndex) ∧
    (∀ g : GameData,
      (FromStartToPlayState g).nextFruitIndex = g.nextFruitIndex ∧
      (FromStartToPlayState g).nextParticleIndex = g.nextParticleIndex ∧
      (FromPlayToLoseState g).nextFruitIndex = g.nextFruitIndex ∧
      (FromPlayToLoseState g).nextParticleIndex = g.nextParticleIndex ∧
      (FromLoseToStartState g).nextFruitIndex = g.nextFruitIndex ∧
      (FromLoseToStartState g).nextParticleIndex = g.nextParticleIndex) := by
  obtain ⟨h1, h2, h3, h4⟩ := runFrames_poolInv inputs
  refine ⟨h3, h4, h1, h2, ?_, ?_⟩
  · intro input g
    have h := foldl_fruitStep_shape input.mousePosition (List.range MAX_FRUIT_COUNT) g
    exact ⟨h.2.2.1, h.2.2.2⟩
  · intro g
    exact ⟨rfl, rfl, rfl, rfl, rfl, rfl⟩

end FruitNinja
